import Mathlib

/-!
Verification of the VoiceChef backend (FastAPI/SQLAlchemy service) against its
natural-language specification.  The Python handlers and utilities are shallowly
embedded as executable Lean functions over explicit state (lists of rows stand in
for database tables); external primitives (bcrypt verification, JWT encoding and
decoding) are passed in as function parameters, since the service treats them as
opaque boundaries.  Timestamps are modelled as natural-number ticks.
-/

/-- HTTP error as raised by FastAPI HTTPException: status code, detail message and
the optional WWW-Authenticate response header. -/
structure HttpError where
  status : Nat
  detail : String
  wwwAuthenticate : Option String := none
deriving Repr, DecidableEq

/-- Tier ceilings, from app/utils/limits.py (get_user_limits). -/
structure UserLimits where
  max_dishes : Nat
  max_recipes_per_dish : Nat
  max_photo_size : Nat
  max_tts_cache_size : Nat
  can_use_premium_tts : Bool
  max_ingredients_per_recipe : Nat
  can_export_recipes : Bool
deriving Repr, DecidableEq

/-- app/utils/limits.py: get_user_limits maps the premium flag to the tier table. -/
def get_user_limits (is_premium : Bool) : UserLimits :=
  if is_premium then
    { max_dishes := 45
      max_recipes_per_dish := 5
      max_photo_size := 10 * 1024 * 1024
      max_tts_cache_size := 200 * 1024 * 1024
      can_use_premium_tts := true
      max_ingredients_per_recipe := 50
      can_export_recipes := true }
  else
    { max_dishes := 15
      max_recipes_per_dish := 3
      max_photo_size := 2 * 1024 * 1024
      max_tts_cache_size := 50 * 1024 * 1024
      can_use_premium_tts := false
      max_ingredients_per_recipe := 20
      can_export_recipes := false }

/-- A row of the users table, from app/models/user.py (columns relevant to the
claims; timestamps are Nat ticks). -/
structure UserRec where
  id : Nat
  email : String
  hashed_password : String
  is_premium : Bool := false
  is_active : Bool := true
  is_admin : Bool := false
  is_verified : Bool := false
  first_name : Option String := none
  last_name : Option String := none
  language : String := "ru"
  timezone : String := "UTC"
  last_login : Option Nat := none
deriving Repr, DecidableEq

/-- Body of the successful login response, from app/schemas/user.py TokenResponse. -/
structure TokenResponse where
  access_token : String
  token_type : String
  expires_in : Nat
  user : UserRec
deriving Repr, DecidableEq

/-- Python str.lower restricted to ASCII letters (the character class exercised
by the claims), written structurally so that concrete inputs evaluate. -/
def pyLower (s : String) : String :=
  String.mk (s.data.map Char.toLower)

/-- Python str.strip for ASCII whitespace, written structurally so that concrete
inputs evaluate. -/
def pyStrip (s : String) : String :=
  String.mk (((s.data.dropWhile Char.isWhitespace).reverse.dropWhile Char.isWhitespace).reverse)

/-- The uniform 401 raised by app/routers/auth.py login for both a missing account
and a mismatching password. -/
def loginFailure : HttpError :=
  { status := 401, detail := "Неверный email или пароль", wwwAuthenticate := some "Bearer" }

/-- The 400 raised by app/auth/security.py verify_password when either argument is
empty, before bcrypt is consulted. -/
def emptyPasswordError : HttpError :=
  { status := 400, detail := "Password and hash must not be empty", wwwAuthenticate := none }

/-- app/auth/security.py verify_password: rejects empty inputs with a 400, otherwise
defers to the bcrypt primitive (passed in as the parameter verify). -/
def verify_password (verify : String → String → Bool) (plain hashed : String) :
    Except HttpError Bool :=
  if plain = "" ∨ hashed = "" then .error emptyPasswordError
  else .ok (verify plain hashed)

/-- app/routers/auth.py login.  createToken stands for create_access_token applied
to the sub claim (the stringified user id); now is the current tick used for
last_login.  Returns the response outcome together with the users table after
commit. -/
def login (verify : String → String → Bool) (createToken : Nat → String) (now : Nat)
    (db : List UserRec) (username password : String) :
    Except HttpError TokenResponse × List UserRec :=
  let uname := pyStrip (pyLower username)
  match db.find? (fun u => u.email == uname) with
  | none => (.error loginFailure, db)
  | some user =>
    match verify_password verify password user.hashed_password with
    | .error e => (.error e, db)
    | .ok false => (.error loginFailure, db)
    | .ok true =>
      let user' := { user with last_login := some now }
      (.ok { access_token := createToken user.id
             token_type := "bearer"
             expires_in := 24 * 60 * 60
             user := user' },
       db.map (fun u => if u.id == user.id then user' else u))

/-- app/dependencies/auth.py get_current_user.  decode stands for
decode_access_token and returns the sub claim of the verified payload (none when
the claim is absent); its failures (bad signature, expiry, wrong type) are
propagated unchanged.  A falsy or non-numeric sub gives the handler's own 401s. -/
def get_current_user (decode : String → Except HttpError (Option String))
    (db : List UserRec) (token : String) : Except HttpError UserRec :=
  match decode token with
  | .error e => .error e
  | .ok sub =>
    match sub with
    | none =>
      .error { status := 401, detail := "Некорректный токен", wwwAuthenticate := some "Bearer" }
    | some s =>
      if s = "" then
        .error { status := 401, detail := "Некорректный токен", wwwAuthenticate := some "Bearer" }
      else
        match s.toInt? with
        | none =>
          .error { status := 401, detail := "Ошибка аутентификации", wwwAuthenticate := some "Bearer" }
        | some n =>
          match db.find? (fun u => (u.id : Int) == n) with
          | none =>
            .error { status := 401, detail := "Пользователь не найден", wwwAuthenticate := some "Bearer" }
          | some u => .ok u

/-- app/dependencies/auth.py get_current_active_user: a pass-through of the base
resolution, with no additional is_active check. -/
def get_current_active_user (current_user : UserRec) : UserRec :=
  current_user

/-- Dish categories, from app/models/dish.py DishCategory. -/
inductive DishCategory
  | first
  | second
  | garnish
deriving Repr, DecidableEq

/-- A row of the dishes table, from app/models/dish.py (columns relevant to the
claims). -/
structure DishRec where
  id : Nat
  name : String
  category : DishCategory
  user_id : Nat
deriving Repr, DecidableEq

/-- The 403 raised by create_dish when the caller's dish count has reached the
tier ceiling. -/
def dishQuotaError (maxDishes : Nat) : HttpError :=
  { status := 403, detail := "Превышен лимит блюд (" ++ toString maxDishes ++ ")", wwwAuthenticate := none }

/-- app/routers/dishes.py create_dish: counts the caller's dishes, rejects with 403
at the tier ceiling, otherwise inserts the new dish (name trimmed).  newId stands
for the id assigned by the database. -/
def create_dish (dishes : List DishRec) (user : UserRec) (name : String)
    (category : DishCategory) (newId : Nat) :
    Except HttpError DishRec × List DishRec :=
  let limits := get_user_limits user.is_premium
  let count := (dishes.filter (fun d => d.user_id == user.id)).length
  if count ≥ limits.max_dishes then
    (.error (dishQuotaError limits.max_dishes), dishes)
  else
    let dish : DishRec := { id := newId, name := pyStrip name, category := category, user_id := user.id }
    (.ok dish, dishes ++ [dish])

/-- A caller-owned recipe as consumed by the suggestion engine: the response
columns of app/routers/suggestions.py plus the names of the linked Ingredient
rows. -/
structure SuggestRecipe where
  id : Nat
  cook_time : Nat
  cook_method : String
  servings : Nat
  photo_url : Option String
  is_favorite : Bool
  ingredient_names : List String
deriving Repr, DecidableEq

/-- One element of the suggest response, app/schemas/dish.py RecipeSuggestion
(match_percent kept exact as a rational). -/
structure RecipeSuggestion where
  id : Nat
  cook_time : Nat
  cook_method : String
  servings : Nat
  photo_url : Option String
  is_favorite : Bool
  match_percent : Rat
deriving Repr, DecidableEq

/-- Python round(x, 2): round half to even at two decimal places, modelled over
exact rationals. -/
def pyRound2 (q : Rat) : Rat :=
  let y : Rat := q * 100
  let n : Int := ⌊y⌋
  let r : Rat := y - (n : Rat)
  if r < 1 / 2 then (n : Rat) / 100
  else if (1 : Rat) / 2 < r then ((n : Rat) + 1) / 100
  else if n % 2 = 0 then (n : Rat) / 100 else ((n : Rat) + 1) / 100

/-- Descending order on match_percent, the key of the final sorted(...) call. -/
def suggGE (a b : RecipeSuggestion) : Prop :=
  b.match_percent ≤ a.match_percent

instance : DecidableRel suggGE := fun a b =>
  inferInstanceAs (Decidable (b.match_percent ≤ a.match_percent))

instance : IsTotal RecipeSuggestion suggGE :=
  ⟨fun a b => (le_total b.match_percent a.match_percent).elim Or.inl Or.inr⟩

instance : IsTrans RecipeSuggestion suggGE :=
  ⟨fun _ _ _ hab hbc => le_trans hbc hab⟩

/-- The loop body of suggest_recipes for one candidate recipe: normalize the
recipe ingredient names with normName, skip the recipe when the resulting set is
empty, score it by the covered fraction of its own ingredient set, and keep it
when the raw score reaches min_match, carrying the rounded match_percent. -/
def suggestOne (normName : String → String) (input_names : Finset String)
    (min_match : Rat) (recipe : SuggestRecipe) : Option RecipeSuggestion :=
  let ingredient_names : Finset String :=
    (recipe.ingredient_names.map normName).toFinset
  if ingredient_names = ∅ then none
  else
    let score : Rat := ((ingredient_names ∩ input_names).card : Rat) / (ingredient_names.card : Rat)
    if min_match ≤ score then
      some { id := recipe.id
             cook_time := recipe.cook_time
             cook_method := recipe.cook_method
             servings := recipe.servings
             photo_url := recipe.photo_url
             is_favorite := recipe.is_favorite
             match_percent := pyRound2 score }
    else none

/-- app/routers/suggestions.py suggest_recipes: empty input short-circuits to an
empty result; the input names are normalized with strip().lower() but each
recipe ingredient name only with lower(); the kept recipes are sorted descending
by match_percent. -/
def suggest_recipes (recipes : List SuggestRecipe) (ingredients : List String)
    (min_match : Rat) : List RecipeSuggestion :=
  if ingredients.isEmpty then []
  else
    let input_names : Finset String := (ingredients.map (fun i => pyLower (pyStrip i))).toFinset
    List.insertionSort suggGE
      (recipes.filterMap (suggestOne (fun n => pyLower n) input_names min_match))

/-- The suggest algorithm as the specification words it: both the input names and
the recipe ingredient names are normalized to lower-cased trimmed strings;
otherwise identical scoring, filtering and descending sort. -/
def suggestSpec (recipes : List SuggestRecipe) (ingredients : List String)
    (min_match : Rat) : List RecipeSuggestion :=
  if ingredients.isEmpty then []
  else
    let input_names : Finset String := (ingredients.map (fun i => pyLower (pyStrip i))).toFinset
    List.insertionSort suggGE
      (recipes.filterMap (suggestOne (fun n => pyLower (pyStrip n)) input_names min_match))

namespace MD5

/-- Left-rotate a 32-bit word (values kept as naturals below two to the 32). -/
def rotl32 (x n : Nat) : Nat :=
  ((x <<< n) ||| (x >>> (32 - n))) % 4294967296

/-- Bitwise complement of a 32-bit word. -/
def not32 (x : Nat) : Nat :=
  x ^^^ 4294967295

/-- The 64 sine-derived round constants of MD5 (RFC 1321 T table). -/
def K : List Nat :=
  [0xd76aa478, 0xe8c7b756, 0x242070db, 0xc1bdceee,
   0xf57c0faf, 0x4787c62a, 0xa8304613, 0xfd469501,
   0x698098d8, 0x8b44f7af, 0xffff5bb1, 0x895cd7be,
   0x6b901122, 0xfd987193, 0xa679438e, 0x49b40821,
   0xf61e2562, 0xc040b340, 0x265e5a51, 0xe9b6c7aa,
   0xd62f105d, 0x02441453, 0xd8a1e681, 0xe7d3fbc8,
   0x21e1cde6, 0xc33707d6, 0xf4d50d87, 0x455a14ed,
   0xa9e3e905, 0xfcefa3f8, 0x676f02d9, 0x8d2a4c8a,
   0xfffa3942, 0x8771f681, 0x6d9d6122, 0xfde5380c,
   0xa4beea44, 0x4bdecfa9, 0xf6bb4b60, 0xbebfbc70,
   0x289b7ec6, 0xeaa127fa, 0xd4ef3085, 0x04881d05,
   0xd9d4d039, 0xe6db99e5, 0x1fa27cf8, 0xc4ac5665,
   0xf4292244, 0x432aff97, 0xab9423a7, 0xfc93a039,
   0x655b59c3, 0x8f0ccc92, 0xffeff47d, 0x85845dd1,
   0x6fa87e4f, 0xfe2ce6e0, 0xa3014314, 0x4e0811a1,
   0xf7537e82, 0xbd3af235, 0x2ad7d2bb, 0xeb86d391]

/-- The per-round left-rotation amounts of MD5. -/
def S : List Nat :=
  [7, 12, 17, 22, 7, 12, 17, 22, 7, 12, 17, 22, 7, 12, 17, 22,
   5, 9, 14, 20, 5, 9, 14, 20, 5, 9, 14, 20, 5, 9, 14, 20,
   4, 11, 16, 23, 4, 11, 16, 23, 4, 11, 16, 23, 4, 11, 16, 23,
   6, 10, 15, 21, 6, 10, 15, 21, 6, 10, 15, 21, 6, 10, 15, 21]

/-- One MD5 round applied to the running state, with M giving the chunk's 16
little-endian words. -/
def step (M : Nat → Nat) (st : Nat × Nat × Nat × Nat) (i : Nat) : Nat × Nat × Nat × Nat :=
  let (a, b, c, d) := st
  let fg : Nat × Nat :=
    if i < 16 then ((b &&& c) ||| (not32 b &&& d), i)
    else if i < 32 then ((d &&& b) ||| (not32 d &&& c), (5 * i + 1) % 16)
    else if i < 48 then (b ^^^ c ^^^ d, (3 * i + 5) % 16)
    else (c ^^^ (b ||| not32 d), (7 * i) % 16)
  let f := (fg.1 + a + K.getD i 0 + M fg.2) % 4294967296
  (d, (b + rotl32 f (S.getD i 0)) % 4294967296, b, c)

/-- Decode the g-th little-endian 32-bit word of a 64-byte chunk. -/
def word (chunk : List Nat) (g : Nat) : Nat :=
  chunk.getD (4 * g) 0 + chunk.getD (4 * g + 1) 0 * 256 +
    chunk.getD (4 * g + 2) 0 * 65536 + chunk.getD (4 * g + 3) 0 * 16777216

/-- Process one 64-byte chunk into the accumulated digest state. -/
def processChunk (st : Nat × Nat × Nat × Nat) (chunk : List Nat) : Nat × Nat × Nat × Nat :=
  let (a0, b0, c0, d0) := st
  let (a, b, c, d) := (List.range 64).foldl (step (word chunk)) (a0, b0, c0, d0)
  ((a0 + a) % 4294967296, (b0 + b) % 4294967296, (c0 + c) % 4294967296, (d0 + d) % 4294967296)

/-- MD5 padding: append 0x80, zero-fill to 56 mod 64, then the bit length as a
little-endian 64-bit quantity. -/
def padMessage (msg : List Nat) : List Nat :=
  let len := msg.length
  let zeros := (120 - (len + 1) % 64) % 64
  let bitLen := (len * 8) % 18446744073709551616
  msg ++ [128] ++ List.replicate zeros 0 ++
    ((List.range 8).map (fun i => (bitLen >>> (8 * i)) % 256))

/-- Split a byte list into 64-byte chunks. -/
def toChunks (bs : List Nat) : List (List Nat) :=
  if h : bs = [] then []
  else bs.take 64 :: toChunks (bs.drop 64)
termination_by bs.length
decreasing_by
  simp only [List.length_drop]
  have : 0 < bs.length := List.length_pos.mpr h
  omega

/-- UTF-8 encoding of one character as bytes. -/
def encodeChar (c : Char) : List Nat :=
  let n := c.toNat
  if n < 128 then [n]
  else if n < 2048 then [192 ||| (n >>> 6), 128 ||| (n % 64)]
  else if n < 65536 then
    [224 ||| (n >>> 12), 128 ||| ((n >>> 6) % 64), 128 ||| (n % 64)]
  else
    [240 ||| (n >>> 18), 128 ||| ((n >>> 12) % 64), 128 ||| ((n >>> 6) % 64), 128 ||| (n % 64)]

/-- UTF-8 byte sequence of a string, as Python str.encode produces. -/
def strBytes (s : String) : List Nat :=
  (s.data.map encodeChar).flatten

/-- One lowercase hexadecimal digit. -/
def hexDigit (n : Nat) : Char :=
  if n < 10 then Char.ofNat (48 + n) else Char.ofNat (87 + n)

/-- Two-digit lowercase hexadecimal rendering of a byte. -/
def byteToHex (b : Nat) : String :=
  String.mk [hexDigit (b / 16), hexDigit (b % 16)]

/-- The four bytes of a 32-bit word, little-endian (MD5 output order). -/
def wordLEBytes (w : Nat) : List Nat :=
  [w % 256, (w >>> 8) % 256, (w >>> 16) % 256, (w >>> 24) % 256]

/-- hashlib.md5(s.encode()).hexdigest(): the 32-character lowercase hex digest of
the UTF-8 bytes of s. -/
def hexDigest (s : String) : String :=
  let init : Nat × Nat × Nat × Nat := (0x67452301, 0xefcdab89, 0x98badcfe, 0x10325476)
  let (a, b, c, d) := (toChunks (padMessage (strBytes s))).foldl processChunk init
  (((wordLEBytes a ++ wordLEBytes b ++ wordLEBytes c ++ wordLEBytes d).map byteToHex).foldl
    (fun acc h => acc ++ h) "")

end MD5

/-- app/utils/tts.py get_tts_cache_path: the cache file is named by the MD5 hex
digest of the string text_voice (Python f-string joining the two arguments with
an underscore) under the cache directory. -/
def get_tts_cache_path (text voice : String) : String :=
  "cache/tts/" ++ MD5.hexDigest (text ++ "_" ++ voice) ++ ".mp3"

/-- The underscore join that get_tts_cache_path hashes. -/
def ttsCacheKey (text voice : String) : String :=
  text ++ "_" ++ voice

/-- Whether the first character list is a prefix of the second. -/
def charsStartsWith : List Char → List Char → Bool
  | [], _ => true
  | _ :: _, [] => false
  | a :: as, b :: bs => a == b && charsStartsWith as bs

/-- Whether the pattern occurs as a contiguous run somewhere in the list. -/
def charsContain (pat : List Char) : List Char → Bool
  | [] => charsStartsWith pat []
  | c :: rest => charsStartsWith pat (c :: rest) || charsContain pat rest

/-- Whether pat occurs as a substring of s (Python in operator on str). -/
def strContainsSub (s pat : String) : Bool :=
  charsContain pat.data s.data

/-- app/utils/tts.py delete_tts_cache_for_recipe: removes every cached mp3 whose
stem contains the substring recipe_{id}_step_ and reports how many were removed.
files models the stems of the mp3 files present in the cache directory. -/
def delete_tts_cache_for_recipe (files : List String) (recipe_id : Nat) :
    List String × Nat :=
  let pat := "recipe_" ++ toString recipe_id ++ "_step_"
  let kept := files.filter (fun f => !(strContainsSub f pat))
  (kept, (files.filter (fun f => strContainsSub f pat)).length)

/-- A row of the recipes table as needed by delete_recipe. -/
structure RecipeRow where
  id : Nat
  dish_id : Nat
  photo_url : Option String := none
deriving Repr, DecidableEq

/-- The catalog-side persistent state touched by delete_recipe: the dishes and
recipes tables and the stems of the TTS cache files on disk. -/
structure CatalogState where
  dishes : List DishRec
  recipes : List RecipeRow
  ttsFiles : List String
deriving Repr, DecidableEq

/-- The 404 raised when the recipe does not exist or is not owned by the caller. -/
def recipeNotFoundError : HttpError :=
  { status := 404, detail := "Рецепт не найден", wwwAuthenticate := none }

/-- The generic 500 produced by the outermost except branch of delete_recipe. -/
def deleteRecipeInternalError : HttpError :=
  { status := 500, detail := "Ошибка при удалении рецепта", wwwAuthenticate := none }

/-- The tail of delete_recipe once the photo branch has been passed: purge the TTS
cache for the recipe, delete the row, report success. -/
def deleteRecipeProceed (st : CatalogState) (recipe : RecipeRow)
    (background : List String) :
    Except HttpError String × CatalogState × List String :=
  let purged := (delete_tts_cache_for_recipe st.ttsFiles recipe.id).1
  (.ok "Рецепт успешно удалён",
   { st with
     recipes := st.recipes.filter (fun r => !(r.id == recipe.id))
     ttsFiles := purged },
   background)

/-- app/routers/recipes.py delete_recipe.  The recipe is looked up joined through
Dish and scoped to the caller; absent gives 404.  When photo_url holds a
non-empty string, the handler evaluates recipe.photo_url.scalar() inside the if
condition; photo_url is a plain str column value, so this raises AttributeError,
which the generic except converts to a 500 before anything is scheduled,
purged or deleted.  Otherwise the TTS cache entries for the recipe are purged
synchronously and the row is deleted.  background models the deferred-deletion
task queue (never reached on any path, since the scheduling call sits beyond the
crashing condition). -/
def delete_recipe (st : CatalogState) (user_id recipe_id : Nat)
    (background : List String) :
    Except HttpError String × CatalogState × List String :=
  match st.recipes.find? (fun r => r.id == recipe_id &&
      st.dishes.any (fun d => d.id == r.dish_id && d.user_id == user_id)) with
  | none => (.error recipeNotFoundError, st, background)
  | some recipe =>
    match recipe.photo_url with
    | some p =>
      if p = "" then deleteRecipeProceed st recipe background
      else (.error deleteRecipeInternalError, st, background)
    | none => deleteRecipeProceed st recipe background

/-- A cooking-session row as consumed by the streak computation: the calendar day
of started_at expressed as days before today, and the is_completed flag. -/
structure SessionRow where
  day : Nat
  is_completed : Bool
deriving Repr, DecidableEq

/-- The per-day completed-session count queried inside the streak loop. -/
def completedSessionsOn (sessions : List SessionRow) (d : Nat) : Nat :=
  (sessions.filter (fun s => s.day == d && s.is_completed)).length

/-- Whether the day d days back has at least one completed session. -/
def hasCompletedOn (sessions : List SessionRow) (d : Nat) : Bool :=
  decide (0 < completedSessionsOn sessions d)

/-- The loop body of the streak computation in
app/routers/analytics.py get_personalized_dashboard (lines 623-640), iterating
days_back over the given day list with the running counter. -/
def streakLoop (sessions : List SessionRow) : List Nat → Nat → Nat
  | [], streak => streak
  | days_back :: rest, streak =>
    if hasCompletedOn sessions days_back then
      if days_back == streak then streakLoop sessions rest (streak + 1)
      else streak
    else
      if days_back == 0 then streak
      else if days_back == streak then streak
      else streakLoop sessions rest streak

/-- The cooking-streak computation: the loop over range(7) starting from counter
zero. -/
def cooking_streak (sessions : List SessionRow) : Nat :=
  streakLoop sessions (List.range 7) 0

/-- The body of UserCreate.validate_password in app/schemas/user.py: reject a
password with no digit, then one with no letter (ASCII character classes model
the Python predicates on the inputs of interest). -/
def validate_password_body (v : String) : Except String String :=
  if !(v.data.any (fun c => c.isDigit)) then
    .error "Пароль должен содержать хотя бы одну цифру"
  else if !(v.data.any (fun c => c.isAlpha)) then
    .error "Пароль должен содержать хотя бы одну букву"
  else .ok v

/-- The password validation UserCreate actually performs.  In app/schemas/user.py
the decorator order is @classmethod above @field_validator; pydantic v2 collects
validators by scanning class attributes for descriptor-proxy instances
(DecoratorInfos.build), and a classmethod-wrapped proxy fails that scan, so
validate_password is never registered and never runs.  The only enforced
constraints are the Field bounds min_length=8, max_length=128. -/
def userCreatePasswordAccepted (password : String) : Bool :=
  8 ≤ password.length && password.length ≤ 128

/-- A row of the payload of POST /auth/register, app/schemas/user.py UserCreate. -/
structure UserCreatePayload where
  email : String
  password : String
  first_name : Option String := none
  last_name : Option String := none
  language : String := "ru"
deriving Repr, DecidableEq

/-- The 409 raised by register on a duplicate email. -/
def emailExistsError : HttpError :=
  { status := 409, detail := "Пользователь с таким email уже существует", wwwAuthenticate := none }

/-- app/routers/auth.py register: checks the email for a duplicate, then
constructs the User from the email and the password hash ONLY — the payload
fields first_name, last_name and language are never read, so the stored row
carries the model column defaults.  The stored email reflects the User model
validator (strip().lower()).  hash stands for hash_password; newId for the
database-assigned id. -/
def register (hash : String → String) (db : List UserRec)
    (payload : UserCreatePayload) (newId : Nat) :
    Except HttpError UserRec × List UserRec :=
  match db.find? (fun u => u.email == payload.email) with
  | some _ => (.error emailExistsError, db)
  | none =>
    let user : UserRec :=
      { id := newId
        email := pyLower (pyStrip payload.email)
        hashed_password := hash payload.password }
    (.ok user, db ++ [user])

/-- The 404 of the admin user-management endpoints. -/
def userNotFoundError : HttpError :=
  { status := 404, detail := "Пользователь не найден", wwwAuthenticate := none }

/-- The 400 raised by toggle_user_active when an admin targets their own id. -/
def selfDeactivateError : HttpError :=
  { status := 400, detail := "Нельзя деактивировать собственный аккаунт", wwwAuthenticate := none }

/-- app/routers/users.py toggle_user_active: resolve the target (404 when absent),
reject the admin's own id with a 400, otherwise flip is_active and commit. -/
def toggle_user_active (db : List UserRec) (admin : UserRec) (user_id : Nat) :
    Except HttpError UserRec × List UserRec :=
  match db.find? (fun u => u.id == user_id) with
  | none => (.error userNotFoundError, db)
  | some user =>
    if user.id == admin.id then
      (.error selfDeactivateError, db)
    else
      let user' := { user with is_active := !user.is_active }
      (.ok user', db.map (fun x => if x.id == user.id then user' else x))

/-- The four bulk actions the UserBulkAction schema regex allows. -/
inductive BulkAction
  | activate
  | deactivate
  | premium_on
  | premium_off
deriving Repr, DecidableEq, BEq

/-- The per-user effect of one bulk action branch. -/
def applyBulkAction : BulkAction → UserRec → UserRec
  | .activate, u => { u with is_active := true }
  | .deactivate, u => { u with is_active := false }
  | .premium_on, u => { u with is_premium := true }
  | .premium_off, u => { u with is_premium := false }

/-- The skip condition of the bulk loop: a deactivate action silently skips the
acting admin's own row. -/
def bulkSkip (admin_id : Nat) (action : BulkAction) (u : UserRec) : Bool :=
  action == BulkAction.deactivate && u.id == admin_id

/-- The 400 raised by bulk_user_action when the filtered rows do not cover the
requested id list. -/
def bulkUsersMissingError : HttpError :=
  { status := 400, detail := "Некоторые пользователи не найдены", wwwAuthenticate := none }

/-- app/routers/admin.py bulk_user_action: load the rows whose id is in the
request list, fail with 400 when the row count differs from the id count, then
loop over the rows applying the action, skipping the admin's own row for
deactivate; the response carries how many rows were changed.  The loop mutates
the loaded ORM rows in place; its committed effect on the table is the
element-wise update below, and the reported count is the number of non-skipped
loaded rows. -/
def bulk_user_action (db : List UserRec) (admin : UserRec) (user_ids : List Nat)
    (action : BulkAction) : Except HttpError Nat × List UserRec :=
  let users := db.filter (fun u => user_ids.contains u.id)
  if users.length != user_ids.length then
    (.error bulkUsersMissingError, db)
  else
    let updated_count := (users.filter (fun u => !(bulkSkip admin.id action u))).length
    (.ok updated_count,
     db.map (fun u =>
       if user_ids.contains u.id && !(bulkSkip admin.id action u) then
         applyBulkAction action u
       else u))

/-- Setting the is_active flag of a user row, for the is_active-independence
statements. -/
def setActive (b : Bool) (u : UserRec) : UserRec :=
  { u with is_active := b }

/-- Lifting setActive over the user embedded in a successful login response. -/
def mapTokenActive (b : Bool) : Except HttpError TokenResponse → Except HttpError TokenResponse
  | .error e => .error e
  | .ok t => .ok { t with user := setActive b t.user }

/-- A concrete stand-in for the bcrypt verifier: accepts exactly one
password-hash pair. -/
def demoVerify (plain hashed : String) : Bool :=
  plain == "correct1pw" && hashed == "bcrypt-demo-hash"

/-- A concrete stand-in for the token encoder. -/
def demoToken (n : Nat) : String :=
  "jwt-" ++ toString n

/-- A one-user users table for concrete evaluations. -/
def demoDb : List UserRec :=
  [{ id := 1, email := "bob@x.com", hashed_password := "bcrypt-demo-hash" }]

/-- A table of n dishes owned by user 1, for concrete quota evaluations. -/
def demoDishes (n : Nat) : List DishRec :=
  (List.range n).map (fun i =>
    { id := i, name := "блюдо", category := DishCategory.first, user_id := 1 })

/-- A non-premium caller. -/
def demoFreeUser : UserRec :=
  { id := 1, email := "bob@x.com", hashed_password := "bcrypt-demo-hash" }

/-- The same caller with is_premium set. -/
def demoPremiumUser : UserRec :=
  { id := 1, email := "bob@x.com", hashed_password := "bcrypt-demo-hash", is_premium := true }

/-- The suggestion example of the specification: a caller recipe with ingredients
salt, pepper, chicken. -/
def demoSuggestRecipe : SuggestRecipe :=
  { id := 1, cook_time := 40, cook_method := "жарка", servings := 2,
    photo_url := none, is_favorite := false,
    ingredient_names := ["salt", "pepper", "chicken"] }

/-- The normalized input set for the example list chicken, salt. -/
def demoInputSet : Finset String :=
  (["chicken", "salt"].map (fun i => pyLower (pyStrip i))).toFinset

/-- A concrete stand-in for the bcrypt hashing primitive. -/
def demoHash (p : String) : String :=
  "bcrypt(" ++ p ++ ")"

/-- The catalog state of the C5 exhibit: user 1 owns dish 5 holding recipe 10,
which carries a photo; two TTS cache files exist, one matching recipe 10 and one
matching recipe 12. -/
def demoCatalog : CatalogState :=
  { dishes := [{ id := 5, name := "Суп", category := DishCategory.first, user_id := 1 }]
    recipes := [{ id := 10, dish_id := 5, photo_url := some "/uploads/photos/10_ab12cd34.jpg" }]
    ttsFiles := ["recipe_10_step_1", "recipe_12_step_1"] }

/-- The same state with no photo on recipe 10. -/
def demoCatalogNoPhoto : CatalogState :=
  { dishes := [{ id := 5, name := "Суп", category := DishCategory.first, user_id := 1 }]
    recipes := [{ id := 10, dish_id := 5, photo_url := none }]
    ttsFiles := ["recipe_10_step_1", "recipe_12_step_1"] }

/-- An admin row for concrete admin-endpoint evaluations. -/
def demoAdmin : UserRec :=
  { id := 1, email := "admin@x.com", hashed_password := "h", is_admin := true }

/-- A second user row. -/
def demoUser2 : UserRec :=
  { id := 2, email := "u2@x.com", hashed_password := "h" }

/-- A third user row. -/
def demoUser3 : UserRec :=
  { id := 3, email := "u3@x.com", hashed_password := "h" }

/-- The three-user table of the C8 witness. -/
def demoAdminDb : List UserRec :=
  [demoAdmin, demoUser2, demoUser3]

/-- C1 (amended): for every login attempt with a non-empty submitted password,
the failure response is the identical loginFailure value (status 401, detail
"Неверный email или пароль", WWW-Authenticate Bearer) whether the email matches
no account or the account exists (with its always non-empty stored hash) and the
password does not verify; the two causes are indistinguishable.  The amendment
restricts the claim to non-empty passwords: an empty password yields a 400 from
verify_password when the account exists but the uniform 401 when it does not
(see the counterexample). -/
theorem login_failure_uniform
    (verify : String → String → Bool) (tok : Nat → String) (now : Nat)
    (db : List UserRec) (username password : String)
    (hpw : password ≠ "") :
    (db.find? (fun u => u.email == pyStrip (pyLower username)) = none →
      (login verify tok now db username password).1 = .error loginFailure) ∧
    (∀ u, db.find? (fun u => u.email == pyStrip (pyLower username)) = some u →
      u.hashed_password ≠ "" → verify password u.hashed_password = false →
      (login verify tok now db username password).1 = .error loginFailure) := by
  constructor
  · intro hfind
    simp [login, hfind]
  · intro u hfind hh hv
    simp [login, hfind, verify_password, hpw, hh, hv]

/-- C1 witness: the two failure causes evaluated concretely — an unknown email
and a known email with a wrong (non-empty) password both produce exactly
loginFailure. -/
theorem login_failure_uniform_witness :
    (login demoVerify demoToken 0 demoDb "alice@x.com" "wrongpass1").1 = .error loginFailure ∧
    (login demoVerify demoToken 0 demoDb "bob@x.com" "wrongpass1").1 = .error loginFailure := by
  constructor
  · exact (login_failure_uniform demoVerify demoToken 0 demoDb "alice@x.com" "wrongpass1"
      (by decide)).1 (by decide)
  · exact (login_failure_uniform demoVerify demoToken 0 demoDb "bob@x.com" "wrongpass1"
      (by decide)).2 { id := 1, email := "bob@x.com", hashed_password := "bcrypt-demo-hash" }
      (by decide) (by decide) (by decide)

/-- C1 counterexample: with an empty submitted password the two failure causes
are distinguishable — a known email gives the 400 emptyPasswordError (raised by
verify_password before bcrypt runs) while an unknown email gives the uniform
401, so the claim as stated (identical responses for every failing attempt)
does not hold. -/
theorem login_empty_password_distinguishes :
    (login demoVerify demoToken 0 demoDb "bob@x.com" "").1 = .error emptyPasswordError ∧
    (login demoVerify demoToken 0 demoDb "alice@x.com" "").1 = .error loginFailure ∧
    emptyPasswordError ≠ loginFailure :=
  ⟨rfl, rfl, by decide⟩

/-- C2: create_dish succeeds exactly while the caller's dish count is strictly
below the tier ceiling (appending the new trimmed-name dish) and fails with the
403 quota error once the count has reached it; the ceiling is 15 for
non-premium and 45 for premium users. -/
theorem create_dish_quota
    (dishes : List DishRec) (user : UserRec) (name : String)
    (category : DishCategory) (newId : Nat) :
    ((dishes.filter (fun d => d.user_id == user.id)).length <
        (get_user_limits user.is_premium).max_dishes →
      create_dish dishes user name category newId =
        (.ok { id := newId, name := pyStrip name, category := category, user_id := user.id },
         dishes ++ [{ id := newId, name := pyStrip name, category := category, user_id := user.id }])) ∧
    ((get_user_limits user.is_premium).max_dishes ≤
        (dishes.filter (fun d => d.user_id == user.id)).length →
      create_dish dishes user name category newId =
        (.error (dishQuotaError (get_user_limits user.is_premium).max_dishes), dishes)) ∧
    (get_user_limits false).max_dishes = 15 ∧
    (get_user_limits true).max_dishes = 45 := by
  refine ⟨?_, ?_, rfl, rfl⟩
  · intro h
    have hnot : ¬((dishes.filter (fun d => d.user_id == user.id)).length ≥
        (get_user_limits user.is_premium).max_dishes) := by omega
    simp [create_dish, hnot]
  · intro h
    simp [create_dish, h]

/-- C2 witness: the 15th creation (14 existing dishes) succeeds and the 16th (15
existing) fails for a non-premium user; the same 15-dish state permits creation
once premium, up to the 45 ceiling which again rejects. -/
theorem create_dish_quota_witness :
    (create_dish (demoDishes 14) demoFreeUser "Борщ" DishCategory.first 100 =
      (.ok { id := 100, name := pyStrip "Борщ", category := DishCategory.first, user_id := demoFreeUser.id },
       demoDishes 14 ++ [{ id := 100, name := pyStrip "Борщ", category := DishCategory.first, user_id := demoFreeUser.id }])) ∧
    (create_dish (demoDishes 15) demoFreeUser "Борщ" DishCategory.first 100 =
      (.error (dishQuotaError 15), demoDishes 15)) ∧
    (create_dish (demoDishes 15) demoPremiumUser "Борщ" DishCategory.first 100 =
      (.ok { id := 100, name := pyStrip "Борщ", category := DishCategory.first, user_id := demoFreeUser.id },
       demoDishes 15 ++ [{ id := 100, name := pyStrip "Борщ", category := DishCategory.first, user_id := demoFreeUser.id }])) ∧
    (create_dish (demoDishes 45) demoPremiumUser "Борщ" DishCategory.first 100 =
      (.error (dishQuotaError 45), demoDishes 45)) := by
  refine ⟨?_, ?_, ?_, ?_⟩
  · exact (create_dish_quota (demoDishes 14) demoFreeUser "Борщ" DishCategory.first 100).1
      (by decide)
  · exact (create_dish_quota (demoDishes 15) demoFreeUser "Борщ" DishCategory.first 100).2.1
      (by decide)
  · exact (create_dish_quota (demoDishes 15) demoPremiumUser "Борщ" DishCategory.first 100).1
      (by decide)
  · exact (create_dish_quota (demoDishes 45) demoPremiumUser "Борщ" DishCategory.first 100).2.1
      (by decide)

/-- Python round(2/3, 2) is 0.67. -/
theorem pyRound2_two_thirds : pyRound2 (2/3) = 67/100 := by
  simp only [pyRound2]
  norm_num

/-- Evaluation of the suggestion loop body on the example recipe: the score is
exactly 2/3, so the recipe is kept exactly when min_match is at most 2/3. -/
theorem demoSuggestOne (mm : Rat) :
    suggestOne (fun n => pyLower n) demoInputSet mm demoSuggestRecipe =
      if mm ≤ 2/3 then
        some { id := 1, cook_time := 40, cook_method := "жарка", servings := 2,
               photo_url := none, is_favorite := false, match_percent := pyRound2 (2/3) }
      else none := by
  have hset : (demoSuggestRecipe.ingredient_names.map (fun n => pyLower n)).toFinset =
      ({"salt", "pepper", "chicken"} : Finset String) := by decide
  have hcap : ((({"salt", "pepper", "chicken"} : Finset String)) ∩ demoInputSet).card = 2 := by
    decide
  have hcard : ({"salt", "pepper", "chicken"} : Finset String).card = 3 := by decide
  have hne : ¬(({"salt", "pepper", "chicken"} : Finset String) = ∅) := by decide
  simp only [suggestOne, hset, hne, if_false, hcap, hcard]
  norm_num [demoSuggestRecipe]

/-- C3: on recipe ingredient names that carry no surrounding whitespace (which is
every name the Ingredient model stores, since its validator strips them),
suggest_recipes computes exactly the specification algorithm over lower-cased
trimmed names — score |recipe ∩ input| / |recipe| per recipe, recipes with no
ingredients excluded, kept iff score ≥ min_match — and its output is sorted
descending by match percentage; the salt-pepper-chicken recipe against input
chicken, salt scores 2/3 (match_percent 0.67): included at min_match 0.6,
excluded at 0.7. -/
theorem suggest_recipes_correct
    (recipes : List SuggestRecipe) (ingredients : List String) (min_match : Rat)
    (htrim : ∀ r ∈ recipes, ∀ n ∈ r.ingredient_names, pyStrip n = n) :
    suggest_recipes recipes ingredients min_match =
      suggestSpec recipes ingredients min_match ∧
    (suggest_recipes recipes ingredients min_match).Sorted suggGE ∧
    suggest_recipes [demoSuggestRecipe] ["chicken", "salt"] (6/10) =
      [{ id := 1, cook_time := 40, cook_method := "жарка", servings := 2,
         photo_url := none, is_favorite := false, match_percent := 67/100 }] ∧
    suggest_recipes [demoSuggestRecipe] ["chicken", "salt"] (7/10) = [] := by
  refine ⟨?_, ?_, ?_, ?_⟩
  · cases hin : ingredients.isEmpty
    · simp only [suggest_recipes, suggestSpec, hin, Bool.false_eq_true, if_false]
      congr 1
      refine List.filterMap_congr (fun r hr => ?_)
      have hnames : r.ingredient_names.map (fun n => pyLower n)
          = r.ingredient_names.map (fun n => pyLower (pyStrip n)) := by
        refine List.map_congr_left (fun n hn => ?_)
        rw [htrim r hr n hn]
      simp only [suggestOne, hnames]
    · simp [suggest_recipes, suggestSpec, hin]
  · cases hin : ingredients.isEmpty
    · simp only [suggest_recipes, hin, Bool.false_eq_true, if_false]
      exact List.sorted_insertionSort suggGE _
    · simp [suggest_recipes, hin]
  · have h := demoSuggestOne (6/10)
    rw [if_pos (by norm_num)] at h
    simp only [demoInputSet] at h
    simp only [suggest_recipes, List.isEmpty, Bool.false_eq_true, if_false,
      List.filterMap_cons, h, List.filterMap_nil, List.insertionSort, List.orderedInsert,
      pyRound2_two_thirds]
  · have h := demoSuggestOne (7/10)
    rw [if_neg (by norm_num)] at h
    simp only [demoInputSet] at h
    simp only [suggest_recipes, List.isEmpty, Bool.false_eq_true, if_false,
      List.filterMap_cons, h, List.filterMap_nil, List.insertionSort]

/-- C3 witness: the refinement and sortedness applied to the concrete example
recipe (whose ingredient names are trimmed), with the inclusion and exclusion
facts evaluated. -/
theorem suggest_recipes_correct_witness :
    suggest_recipes [demoSuggestRecipe] ["chicken", "salt"] (6/10) =
      suggestSpec [demoSuggestRecipe] ["chicken", "salt"] (6/10) ∧
    (suggest_recipes [demoSuggestRecipe] ["chicken", "salt"] (6/10)).Sorted suggGE ∧
    suggest_recipes [demoSuggestRecipe] ["chicken", "salt"] (6/10) =
      [{ id := 1, cook_time := 40, cook_method := "жарка", servings := 2,
         photo_url := none, is_favorite := false, match_percent := 67/100 }] ∧
    suggest_recipes [demoSuggestRecipe] ["chicken", "salt"] (7/10) = [] :=
  suggest_recipes_correct [demoSuggestRecipe] ["chicken", "salt"] (6/10) (by decide)

/-- C4: the registration payload accepts an 8-character password with no digit
and one with no letter — the structural Field bounds pass them and the
validate_password validator, though its body would reject both, is never
registered (the @classmethod decorator sits above @field_validator, so pydantic
v2 does not collect it) — and register then creates the account. -/
theorem password_validator_inert :
    userCreatePasswordAccepted "abcdefgh" = true ∧
    validate_password_body "abcdefgh" =
      .error "Пароль должен содержать хотя бы одну цифру" ∧
    userCreatePasswordAccepted "12345678" = true ∧
    validate_password_body "12345678" =
      .error "Пароль должен содержать хотя бы одну букву" ∧
    register demoHash [] { email := "bob@x.com", password := "abcdefgh" } 1 =
      (.ok { id := 1, email := "bob@x.com", hashed_password := demoHash "abcdefgh" },
       [{ id := 1, email := "bob@x.com", hashed_password := demoHash "abcdefgh" }]) := by
  refine ⟨rfl, rfl, rfl, rfl, ?_⟩
  rfl

/-- C5: deleting an owned recipe that carries a photo does not complete — the
handler evaluates photo_url.scalar() on a plain string, and the resulting
AttributeError surfaces as the generic 500 with the state untouched (no photo
scheduled, no TTS purged, no row deleted).  Without a photo the handler does
purge the TTS cache entries whose stem contains recipe_10_step_ and deletes the
row, and a non-owner gets the 404 with no change. -/
theorem delete_recipe_photo_crash :
    delete_recipe demoCatalog 1 10 [] =
      (.error deleteRecipeInternalError, demoCatalog, []) ∧
    delete_recipe demoCatalogNoPhoto 1 10 [] =
      (.ok "Рецепт успешно удалён",
       { dishes := demoCatalogNoPhoto.dishes, recipes := [], ttsFiles := ["recipe_12_step_1"] },
       []) ∧
    delete_recipe demoCatalog 2 10 [] =
      (.error recipeNotFoundError, demoCatalog, []) := by
  refine ⟨rfl, ?_, rfl⟩
  rfl

/-- C6 (amended): the TTS cache path is a pure deterministic function of the pair
(text, voice) — identical arguments give the identical path — and more precisely
it depends only on the underscore join text_voice that the source hashes, so two
distinct pairs whose joins coincide receive the same path; changing one argument
is only guaranteed to change the path when it changes that join (and then up to
MD5 collisions). -/
theorem tts_cache_path_key_determined (t v t2 v2 : String) :
    (t = t2 → v = v2 → get_tts_cache_path t v = get_tts_cache_path t2 v2) ∧
    (ttsCacheKey t v = ttsCacheKey t2 v2 →
      get_tts_cache_path t v = get_tts_cache_path t2 v2) := by
  constructor
  · rintro rfl rfl
    rfl
  · intro h
    simp only [ttsCacheKey] at h
    simp only [get_tts_cache_path, h]

/-- C6 witness: determinism at a concrete pair, and the key-determination applied
to the colliding pairs. -/
theorem tts_cache_path_key_determined_witness :
    get_tts_cache_path "шаг один" "recipe_1_step_1" =
      get_tts_cache_path "шаг один" "recipe_1_step_1" ∧
    get_tts_cache_path "a_b" "c" = get_tts_cache_path "a" "b_c" :=
  ⟨(tts_cache_path_key_determined "шаг один" "recipe_1_step_1"
      "шаг один" "recipe_1_step_1").1 rfl rfl,
   (tts_cache_path_key_determined "a_b" "c" "a" "b_c").2 (by decide)⟩

/-- C6 counterexample: the distinct argument pairs (a_b, c) and (a, b_c) produce
the identical cache path, because the source hashes the ambiguous underscore
join; so distinct pairs do not always give distinct paths. -/
theorem tts_cache_path_collision :
    get_tts_cache_path "a_b" "c" = get_tts_cache_path "a" "b_c" ∧
    ("a_b", "c") ≠ (("a", "b_c") : String × String) := by
  constructor
  · have h : ttsCacheKey "a_b" "c" = ttsCacheKey "a" "b_c" := by decide
    simp only [ttsCacheKey] at h
    simp only [get_tts_cache_path, h]
  · decide

/-- The streak loop entered at day k with counter k returns k plus the length of
the initial all-completed run of the remaining days. -/
theorem streakLoop_range' (sessions : List SessionRow) :
    ∀ (n k : Nat),
      streakLoop sessions (List.range' k n) k =
        k + ((List.range' k n).takeWhile (hasCompletedOn sessions)).length := by
  intro n
  induction n with
  | zero =>
    intro k
    simp [List.range', streakLoop]
  | succ n ih =>
    intro k
    rw [List.range'_succ]
    cases hc : hasCompletedOn sessions k with
    | true =>
      simp only [streakLoop, hc, if_true, beq_self_eq_true, List.takeWhile_cons,
        List.length_cons, ih (k + 1)]
      omega
    | false =>
      simp only [streakLoop, hc, Bool.false_eq_true, if_false, List.takeWhile_cons,
        List.length_nil, beq_self_eq_true, if_true, ite_self]
      omega

/-- C7: the cooking-streak computation walks backward from today over seven days
and returns the length of the initial run of consecutive days with at least one
completed session; in particular completed sessions on today and yesterday only
give streak 2, and a completed session only two days ago gives streak 0. -/
theorem cooking_streak_initial_run (sessions : List SessionRow) :
    cooking_streak sessions =
      ((List.range 7).takeWhile (hasCompletedOn sessions)).length ∧
    cooking_streak [{ day := 0, is_completed := true }, { day := 1, is_completed := true }] = 2 ∧
    cooking_streak [{ day := 2, is_completed := true }] = 0 := by
  refine ⟨?_, by decide, by decide⟩
  have h := streakLoop_range' sessions 7 0
  simpa [cooking_streak, List.range_eq_range'] using h

/-- C9: register never reads first_name, last_name or language — two payloads
agreeing on email and password produce identical outcomes — and a successfully
created row carries first_name and last_name absent, language at its column
default ru, and the flag defaults. -/
theorem register_ignores_profile_fields
    (hash : String → String) (db : List UserRec) (p1 p2 : UserCreatePayload) (newId : Nat)
    (he : p1.email = p2.email) (hp : p1.password = p2.password) :
    register hash db p1 newId = register hash db p2 newId ∧
    (∀ u db2, register hash db p1 newId = (.ok u, db2) →
      u.first_name = none ∧ u.last_name = none ∧ u.language = "ru" ∧
      u.is_premium = false ∧ u.is_active = true ∧ u.is_admin = false ∧
      u.is_verified = false) := by
  constructor
  · simp only [register, he, hp]
  · intro u db2 h
    unfold register at h
    cases hfind : db.find? (fun x => x.email == p1.email) with
    | some w =>
      rw [hfind] at h
      exact absurd h (by simp)
    | none =>
      rw [hfind] at h
      simp only [Prod.mk.injEq, Except.ok.injEq] at h
      rw [← h.1]
      exact ⟨rfl, rfl, rfl, rfl, rfl, rfl, rfl⟩

/-- C9 witness: two concrete payloads differing only in the optional names and
the language register identically, and the created row carries the defaults. -/
theorem register_ignores_profile_fields_witness :
    register demoHash [] { email := "bob@x.com", password := "secret12" } 1 =
      register demoHash []
        { email := "bob@x.com", password := "secret12",
          first_name := some "Анна", last_name := some "Иванова", language := "en" } 1 ∧
    (({ id := 1, email := "bob@x.com", hashed_password := demoHash "secret12" } : UserRec).first_name = none ∧
     ({ id := 1, email := "bob@x.com", hashed_password := demoHash "secret12" } : UserRec).last_name = none ∧
     ({ id := 1, email := "bob@x.com", hashed_password := demoHash "secret12" } : UserRec).language = "ru" ∧
     ({ id := 1, email := "bob@x.com", hashed_password := demoHash "secret12" } : UserRec).is_premium = false ∧
     ({ id := 1, email := "bob@x.com", hashed_password := demoHash "secret12" } : UserRec).is_active = true ∧
     ({ id := 1, email := "bob@x.com", hashed_password := demoHash "secret12" } : UserRec).is_admin = false ∧
     ({ id := 1, email := "bob@x.com", hashed_password := demoHash "secret12" } : UserRec).is_verified = false) :=
  ⟨(register_ignores_profile_fields demoHash []
      { email := "bob@x.com", password := "secret12" }
      { email := "bob@x.com", password := "secret12",
        first_name := some "Анна", last_name := some "Иванова", language := "en" } 1
      rfl rfl).1,
   (register_ignores_profile_fields demoHash []
      { email := "bob@x.com", password := "secret12" }
      { email := "bob@x.com", password := "secret12",
        first_name := some "Анна", last_name := some "Иванова", language := "en" } 1
      rfl rfl).2
     { id := 1, email := "bob@x.com", hashed_password := demoHash "secret12" }
     [{ id := 1, email := "bob@x.com", hashed_password := demoHash "secret12" }]
     rfl⟩

/-- C10: the authentication boundary is independent of the is_active flag —
uniformly setting is_active on every stored user changes the login outcome only
by the same flag inside the echoed profile (success, failure kind and token are
unchanged), changes bearer-token resolution only by that flag on the returned
user, and get_current_active_user is a pass-through with no inactivity check —
so a deactivated account logs in and calls user endpoints exactly like an
active one. -/
theorem auth_boundary_ignores_is_active
    (verify : String → String → Bool) (tok : Nat → String) (now : Nat)
    (db : List UserRec) (username password token : String)
    (decode : String → Except HttpError (Option String)) (b : Bool) :
    (login verify tok now (db.map (setActive b)) username password).1 =
      mapTokenActive b (login verify tok now db username password).1 ∧
    (login verify tok now (db.map (setActive b)) username password).2 =
      ((login verify tok now db username password).2).map (setActive b) ∧
    get_current_user decode (db.map (setActive b)) token =
      (get_current_user decode db token).map (setActive b) ∧
    (∀ u : UserRec, get_current_active_user u = u) := by
  have hfind : (db.map (setActive b)).find? (fun u => u.email == pyStrip (pyLower username)) =
      (db.find? (fun u => u.email == pyStrip (pyLower username))).map (setActive b) :=
    List.find?_map (setActive b) db
  have hlogin :
      (login verify tok now (db.map (setActive b)) username password).1 =
        mapTokenActive b (login verify tok now db username password).1 ∧
      (login verify tok now (db.map (setActive b)) username password).2 =
        ((login verify tok now db username password).2).map (setActive b) := by
    simp only [login, hfind]
    cases hf : db.find? (fun u => u.email == pyStrip (pyLower username)) with
    | none => exact ⟨rfl, rfl⟩
    | some u =>
      simp only [Option.map_some']
      cases hv : verify_password verify password u.hashed_password with
      | error e =>
        have hv2 : verify_password verify password (setActive b u).hashed_password =
            .error e := hv
        simp only [hv, hv2, mapTokenActive]
        exact ⟨trivial, trivial⟩
      | ok bb =>
        have hv2 : verify_password verify password (setActive b u).hashed_password =
            .ok bb := hv
        cases bb with
        | false =>
          simp only [hv, hv2, mapTokenActive]
          exact ⟨trivial, trivial⟩
        | true =>
          simp only [hv, hv2, mapTokenActive]
          constructor
          · rfl
          · rw [List.map_map, List.map_map]
            refine List.map_congr_left (fun x _ => ?_)
            simp only [Function.comp_apply, setActive]
            by_cases hid : x.id == u.id
            · simp only [hid, if_true]
            · simp only [hid, Bool.false_eq_true, if_false]
  refine ⟨hlogin.1, hlogin.2, ?_, fun u => rfl⟩
  simp only [get_current_user]
  cases hd : decode token with
  | error e => rfl
  | ok sub =>
    cases sub with
    | none => rfl
    | some s =>
      by_cases hs : s = ""
      · simp only [hs, if_pos rfl]
        rfl
      · simp only [if_neg hs]
        cases hn : s.toInt? with
        | none => rfl
        | some n =>
          have hfind2 : (db.map (setActive b)).find? (fun u => (u.id : Int) == n) =
              (db.find? (fun u => (u.id : Int) == n)).map (setActive b) :=
            List.find?_map (setActive b) db
          simp only [hfind2]
          cases hf : db.find? (fun u => (u.id : Int) == n) with
          | none => rfl
          | some u => rfl

/-- Counting the complement of a predicate counts the rest of the list. -/
theorem countP_not_eq_sub (l : List Nat) (p : Nat → Bool) :
    l.countP (fun a => !(p a)) = l.length - l.countP p := by
  induction l with
  | nil => simp
  | cons a l ih =>
    have hle : l.countP p ≤ l.length := l.countP_le_length p
    by_cases h : p a <;> simp [List.countP_cons, h, ih] <;> omega

/-- C8: an admin hitting the dedicated toggle-active endpoint with their own id
gets the 400 InvalidInput and the table is unchanged, while a bulk deactivate
whose distinct id list resolves entirely to existing rows and includes the
admin's own id succeeds, deactivates every other listed user, leaves the
admin's row untouched, and reports one less than the list length as the
updated count. -/
theorem bulk_deactivate_skips_self
    (db : List UserRec) (admin : UserRec) (ids : List Nat)
    (hnd_ids : ids.Nodup) (hnd_db : (db.map UserRec.id).Nodup)
    (hres : ∀ i ∈ ids, ∃ u ∈ db, u.id = i) (hmem : admin.id ∈ ids) :
    toggle_user_active db admin admin.id = (.error selfDeactivateError, db) ∧
    bulk_user_action db admin ids BulkAction.deactivate =
      (.ok (ids.length - 1),
       db.map (fun u => if ids.contains u.id && !(u.id == admin.id)
         then { u with is_active := false } else u)) := by
  obtain ⟨a, ha, haid⟩ := hres admin.id hmem
  constructor
  · have hsome : (db.find? (fun u => u.id == admin.id)).isSome := by
      rw [List.find?_isSome]
      exact ⟨a, ha, by simp [haid]⟩
    cases hfind : db.find? (fun u => u.id == admin.id) with
    | none => rw [hfind] at hsome; simp at hsome
    | some w =>
      have hw := List.find?_some hfind
      simp only [toggle_user_active, hfind, hw, if_true]
  · have helem : ∀ i, i ∈ (db.filter (fun u => ids.contains u.id)).map UserRec.id ↔ i ∈ ids := by
      intro i
      constructor
      · intro hi
        obtain ⟨u, hu, rfl⟩ := List.mem_map.mp hi
        have := (List.mem_filter.mp hu).2
        simpa [List.elem_iff] using this
      · intro hi
        obtain ⟨u, hu, huid⟩ := hres i hi
        refine List.mem_map.mpr ⟨u, ?_, huid⟩
        refine List.mem_filter.mpr ⟨hu, ?_⟩
        simpa [List.elem_iff, huid] using hi
    have hsubl : List.Sublist ((db.filter (fun u => ids.contains u.id)).map UserRec.id)
        (db.map UserRec.id) := (List.filter_sublist db).map UserRec.id
    have hlnd : ((db.filter (fun u => ids.contains u.id)).map UserRec.id).Nodup :=
      hnd_db.sublist hsubl
    have hperm : ((db.filter (fun u => ids.contains u.id)).map UserRec.id).Perm ids :=
      (List.perm_ext_iff_of_nodup hlnd hnd_ids).mpr helem
    have hlen : (db.filter (fun u => ids.contains u.id)).length = ids.length := by
      have h := hperm.length_eq
      rw [List.length_map] at h
      exact h
    have hcount : ((db.filter (fun u => ids.contains u.id)).filter
        (fun u => !(bulkSkip admin.id BulkAction.deactivate u))).length = ids.length - 1 := by
      have h1 : ((db.filter (fun u => ids.contains u.id)).filter
          (fun u => !(bulkSkip admin.id BulkAction.deactivate u))).length =
          (db.filter (fun u => ids.contains u.id)).countP
            (fun u => !(u.id == admin.id)) := by
        rw [← List.countP_eq_length_filter]
        rfl
      have h2 : (db.filter (fun u => ids.contains u.id)).countP
          (fun u => !(u.id == admin.id)) =
          ((db.filter (fun u => ids.contains u.id)).map UserRec.id).countP
            (fun i => !(i == admin.id)) := by
        rw [List.countP_map]
        rfl
      have h3 : ((db.filter (fun u => ids.contains u.id)).map UserRec.id).countP
          (fun i => !(i == admin.id)) = ids.countP (fun i => !(i == admin.id)) :=
        hperm.countP_eq _
      have h4 : ids.countP (fun i => !(i == admin.id)) =
          ids.length - ids.countP (fun i => i == admin.id) := by
        have := countP_not_eq_sub ids (fun i => i == admin.id)
        simpa using this
      have h5 : ids.countP (fun i => i == admin.id) = 1 := by
        have := List.count_eq_one_of_mem hnd_ids hmem
        simpa [List.count] using this
      omega
    have hne : ((db.filter (fun u => ids.contains u.id)).length != ids.length) = false := by
      rw [hlen]
      simp
    simp only [bulk_user_action, hne, Bool.false_eq_true, if_false, hcount]
    rfl

/-- C8 witness: with users 1 (the acting admin), 2 and 3 and the id list
containing all three, the toggle endpoint rejects the self-target and the bulk
deactivate reports 2 updated rows, deactivating users 2 and 3 only. -/
theorem bulk_deactivate_skips_self_witness :
    toggle_user_active demoAdminDb demoAdmin 1 = (.error selfDeactivateError, demoAdminDb) ∧
    bulk_user_action demoAdminDb demoAdmin [1, 2, 3] BulkAction.deactivate =
      (.ok 2,
       [demoAdmin,
        { demoUser2 with is_active := false },
        { demoUser3 with is_active := false }]) :=
  bulk_deactivate_skips_self demoAdminDb demoAdmin [1, 2, 3]
    (by decide) (by decide) (by decide) (by decide)
